import Mathlib

/-!
Shallow embedding of `src/libbpf-rs/src/user_ringbuf.rs`.

The module wraps five external libbpf primitives
(`user_ring_buffer__new`, `__reserve`, `__submit`, `__discard`, `__free`)
and the libc last-error slot (`__errno_location`).  We model raw pointers
as natural numbers with `0` playing the role of the null pointer, the
external primitive layer as an abstract `KernelEnv` giving the return
values of the two fallible primitives together with the errno value read
immediately after a failed call, and every operation of the module as a
pure function returning its result paired with the list of primitive
calls it performs.
-/

namespace LibbpfRs

/-- errno code `E2BIG` (Linux value 7), imported in the source via `use libc::E2BIG`. -/
def E2BIG : Int := 7

/-- errno code `ENOSPC` (Linux value 28), imported via `use libc::ENOSPC`. -/
def ENOSPC : Int := 28

/-- The error type of the crate, restricted to the two constructors this module
uses: `Error::with_invalid_data` (an `InvalidInput` error with a message) and
`Error::from_raw_os_error` (a generic OS error carrying a raw code). -/
inductive Error where
  | with_invalid_data (msg : String)
  | from_raw_os_error (code : Int)
deriving DecidableEq, Repr

/-- The map kinds relevant to this module: `MapType::UserRingBuf` and the other
variants of the crate enum (represented by a selection; only equality with
`UserRingBuf` is ever inspected by the code under verification). -/
inductive MapType where
  | Unspec
  | Hash
  | Array
  | RingBuf
  | UserRingBuf
  | Queue
  | Stack
deriving DecidableEq, Repr

/-- The map collaborator: `map.map_type()` and `map.as_fd().as_raw_fd()`. -/
structure MapHandle where
  map_type : MapType
  fd : Nat
deriving DecidableEq, Repr

/-- Raw pointers are addresses; `0` is the null pointer. -/
abbrev Ptr := Nat

/-- `NonNull::new`: `some` on a non-null raw pointer, `none` on null. -/
def nonNullNew (p : Ptr) : Option Ptr :=
  if p = 0 then none else some p

/-- `usize as c_uint`: truncation of the value to 32 bits. -/
def toCUint (n : Nat) : Nat := n % 2 ^ 32

/-- One call into the external libbpf primitive layer, with its arguments. -/
inductive PrimCall where
  | user_ring_buffer__new (fd : Nat)
  | user_ring_buffer__reserve (rb : Ptr) (size : Nat)
  | user_ring_buffer__submit (rb : Ptr) (sample : Ptr)
  | user_ring_buffer__discard (rb : Ptr) (sample : Ptr)
  | user_ring_buffer__free (rb : Ptr)
deriving DecidableEq, Repr

/-- The external kernel side: results of the two fallible primitives and the
value held in the libc last-error slot immediately after a failed call. -/
structure KernelEnv where
  newRaw : Nat → Ptr
  reserveRaw : Ptr → Nat → Ptr
  errno : Int

/-- `UserRingBuffer`: a non-null pointer to the underlying ring object.  The
pointer is produced by `NonNull::new` in `UserRingBuffer::new`, which is the
only constructor, so non-nullness is a theorem rather than a stored fact. -/
structure UserRingBuffer where
  ptr : Ptr
deriving DecidableEq, Repr

/-- `UserRingBufferSample`: the non-null data pointer, the back-reference `rb`
to the owning ring buffer, and the `submitted` flag.  The `PhantomData`
marker is zero-sized and carries no state. -/
structure UserRingBufferSample where
  ptr : Ptr
  rb : UserRingBuffer
  submitted : Bool
deriving DecidableEq, Repr

/-- `UserRingBuffer::new`: reject maps whose kind is not `UserRingBuf` with an
`InvalidInput` error before any primitive call; otherwise call
`user_ring_buffer__new` on the map descriptor and, on a null result, fail with
the OS error read from errno. -/
def UserRingBuffer.new (env : KernelEnv) (map : MapHandle) :
    Except Error UserRingBuffer × List PrimCall :=
  if map.map_type ≠ MapType.UserRingBuf then
    (Except.error (Error.with_invalid_data "Must use a UserRingBuf map"), [])
  else
    let fd := map.fd
    let raw_ptr := env.newRaw fd
    match nonNullNew raw_ptr with
    | none =>
      (Except.error (Error.from_raw_os_error env.errno),
        [PrimCall.user_ring_buffer__new fd])
    | some ptr =>
      (Except.ok { ptr := ptr }, [PrimCall.user_ring_buffer__new fd])

/-- `UserRingBuffer::reserve::<T>`: call `user_ring_buffer__reserve` with
`size_of::<T>() as c_uint`; on a null result classify errno (`E2BIG`,
`ENOSPC`, otherwise raw OS error); on success build the sample with
`submitted := false` and `rb := self`.  The parameter `sizeOfT` stands for
`std::mem::size_of::<T>()`. -/
def UserRingBuffer.reserve (env : KernelEnv) (self : UserRingBuffer)
    (sizeOfT : Nat) :
    Except Error UserRingBufferSample × List PrimCall :=
  let size := sizeOfT
  let sample_ptr := env.reserveRaw self.ptr (toCUint size)
  let res : Except Error UserRingBufferSample :=
    match nonNullNew sample_ptr with
    | none =>
      let errno := env.errno
      if errno = E2BIG then
        Except.error (Error.with_invalid_data "Requested size is too large")
      else if errno = ENOSPC then
        Except.error (Error.with_invalid_data "Not enough space in the ring buffer")
      else
        Except.error (Error.from_raw_os_error errno)
    | some ptr =>
      Except.ok { ptr := ptr, rb := self, submitted := false }
  (res, [PrimCall.user_ring_buffer__reserve self.ptr (toCUint size)])

/-- `UserRingBuffer::submit`: call `user_ring_buffer__submit` with the invoked
handle and the sample pointer, set the `submitted` flag, return `Ok(())`.
The primitive reports no failure code, so the result is unconditionally
success.  Returns the result, the sample as mutated, and the calls made. -/
def UserRingBuffer.submit (self : UserRingBuffer)
    (sample : UserRingBufferSample) :
    Except Error Unit × UserRingBufferSample × List PrimCall :=
  let calls := [PrimCall.user_ring_buffer__submit self.ptr sample.ptr]
  let sample := { sample with submitted := true }
  (Except.ok (), sample, calls)

/-- `Drop for UserRingBufferSample`: if the sample has not been submitted,
discard it against the back-referenced ring buffer; otherwise do nothing. -/
def UserRingBufferSample.drop (s : UserRingBufferSample) : List PrimCall :=
  if !s.submitted then
    [PrimCall.user_ring_buffer__discard s.rb.ptr s.ptr]
  else
    []

/-- `Drop for UserRingBuffer`: one `user_ring_buffer__free` call. -/
def UserRingBuffer.drop (self : UserRingBuffer) : List PrimCall :=
  [PrimCall.user_ring_buffer__free self.ptr]

/-- `UserRingBufferSample::as_mut` returns `&mut *(self.ptr.as_ptr())`: a
mutable reference whose address is exactly the sample pointer.  We model the
reference by its address. -/
def UserRingBufferSample.as_mut (s : UserRingBufferSample) : Ptr := s.ptr

/-- A store to memory at an address, used to model a write through the
reference returned by `as_mut`. -/
def storeAt {α : Type} (m : Ptr → α) (a : Ptr) (v : α) : Ptr → α :=
  fun x => if x = a then v else m x

/-- What a producer does with one reserved sample: submit it, or let it fall
out of scope unsubmitted. -/
inductive SlotAction where
  | submitIt
  | dropUnsubmitted
deriving DecidableEq, Repr

/-- The primitive calls made over the whole lifetime of one sample: the
reserve call, then (on success) either submit followed by the drop of the
submitted sample, or the drop of the unsubmitted sample.  On a failed reserve
no sample exists and only the reserve call happens. -/
def slotLifetime (env : KernelEnv) (rb : UserRingBuffer) (sizeOfT : Nat)
    (act : SlotAction) : List PrimCall :=
  let r := UserRingBuffer.reserve env rb sizeOfT
  match r.1 with
  | Except.error _ => r.2
  | Except.ok s =>
    match act with
    | SlotAction.submitIt =>
      let t := UserRingBuffer.submit rb s
      r.2 ++ t.2.2 ++ (t.2.1).drop
    | SlotAction.dropUnsubmitted =>
      r.2 ++ s.drop

/-- The complete trace of a well-borrowed use of one handle.  Every
`UserRingBufferSample` holds `rb : &'slf UserRingBuffer`, so the borrow
checker forces each sample lifetime to be contained in the lifetime of the
handle: the handle drop can only run after every sample has been dropped.
A session is therefore any sequence of whole sample lifetimes followed by the
single handle drop. -/
def session (env : KernelEnv) (rb : UserRingBuffer)
    (uses : List (Nat × SlotAction)) : List PrimCall :=
  (uses.flatMap fun u => slotLifetime env rb u.1 u.2) ++ rb.drop

/-- `c` is a call to the `free` primitive (against any ring object). -/
def isFree (c : PrimCall) : Prop :=
  ∃ p, c = PrimCall.user_ring_buffer__free p

/-- A kernel side on which every primitive succeeds: `new` returns the ring
object at address 1 and `reserve` returns the region at address 9. -/
def envOk : KernelEnv :=
  { newRaw := fun _ => 1, reserveRaw := fun _ _ => 9, errno := 0 }

/-- A kernel side on which `reserve` returns null with errno `E2BIG`. -/
def envE2BIG : KernelEnv :=
  { newRaw := fun _ => 1, reserveRaw := fun _ _ => 0, errno := 7 }

/-- A kernel side on which `reserve` returns null with errno `ENOSPC`. -/
def envENOSPC : KernelEnv :=
  { newRaw := fun _ => 1, reserveRaw := fun _ _ => 0, errno := 28 }

/-- A kernel side on which `reserve` returns null with errno `EINVAL` (22). -/
def envEINVAL : KernelEnv :=
  { newRaw := fun _ => 1, reserveRaw := fun _ _ => 0, errno := 22 }

/-- A kernel side on which `new` returns null with errno `EACCES` (13). -/
def envNullNew : KernelEnv :=
  { newRaw := fun _ => 0, reserveRaw := fun _ _ => 9, errno := 13 }

/-- Inversion for `nonNullNew`: a `some` result returns the argument pointer,
which is non-null. -/
theorem nonNullNew_some {p q : Ptr} (h : nonNullNew p = some q) :
    q = p ∧ p ≠ 0 := by
  unfold nonNullNew at h
  split at h
  · exact absurd h (by simp)
  · exact ⟨(Option.some.inj h).symm, by assumption⟩

/-- Claim C1: when the underlying reserve primitive returns null, the error
returned by `reserve` is classified from the errno value read immediately
afterwards: `E2BIG` yields the `InvalidInput` error "Requested size is too
large", `ENOSPC` yields the `InvalidInput` error "Not enough space in the
ring buffer", and any other code yields the generic OS error carrying that
code verbatim. -/
theorem C1_reserve_null_errno_classification
    (env : KernelEnv) (self : UserRingBuffer) (sizeOfT : Nat)
    (h : env.reserveRaw self.ptr (toCUint sizeOfT) = 0) :
    (env.errno = E2BIG →
      (UserRingBuffer.reserve env self sizeOfT).1 =
        Except.error (Error.with_invalid_data "Requested size is too large")) ∧
    (env.errno = ENOSPC →
      (UserRingBuffer.reserve env self sizeOfT).1 =
        Except.error (Error.with_invalid_data "Not enough space in the ring buffer")) ∧
    (env.errno ≠ E2BIG → env.errno ≠ ENOSPC →
      (UserRingBuffer.reserve env self sizeOfT).1 =
        Except.error (Error.from_raw_os_error env.errno)) := by
  have hr : (UserRingBuffer.reserve env self sizeOfT).1 =
      if env.errno = E2BIG then
        Except.error (Error.with_invalid_data "Requested size is too large")
      else if env.errno = ENOSPC then
        Except.error (Error.with_invalid_data "Not enough space in the ring buffer")
      else Except.error (Error.from_raw_os_error env.errno) := by
    simp only [UserRingBuffer.reserve]
    rw [h]
    simp [nonNullNew]
  refine ⟨fun h2 => ?_, fun hs => ?_, fun h2 hs => ?_⟩ <;> rw [hr]
  · rw [if_pos h2]
  · rw [if_neg (by rw [hs]; decide), if_pos hs]
  · rw [if_neg h2, if_neg hs]

/-- Witness for C1 at a concrete failing environment with errno `E2BIG`. -/
theorem C1_witness :
    (UserRingBuffer.reserve envE2BIG ⟨1⟩ 8).1 =
      Except.error (Error.with_invalid_data "Requested size is too large") :=
  (C1_reserve_null_errno_classification envE2BIG ⟨1⟩ 8 rfl).1 rfl

/-- Claim C2: for every map whose kind is not `UserRingBuf`,
`UserRingBuffer::new` fails with the `InvalidInput` error and performs no
call into the kernel ring-buffer interface (the trace is empty). -/
theorem C2_new_rejects_wrong_map_type
    (env : KernelEnv) (map : MapHandle)
    (h : map.map_type ≠ MapType.UserRingBuf) :
    UserRingBuffer.new env map =
      (Except.error (Error.with_invalid_data "Must use a UserRingBuf map"), []) := by
  unfold UserRingBuffer.new
  simp [h]

/-- Witness for C2 at a concrete map of kind `Hash`. -/
theorem C2_witness :
    UserRingBuffer.new envOk ⟨MapType.Hash, 3⟩ =
      (Except.error (Error.with_invalid_data "Must use a UserRingBuf map"), []) :=
  C2_new_rejects_wrong_map_type envOk ⟨MapType.Hash, 3⟩ (by decide)

/-- Claim C3: dropping a sample whose submitted flag is false performs exactly
one discard call, against the back-referenced owning ring; after `submit`
(which sets the flag to true) the drop performs zero discard calls. -/
theorem C3_drop_discards_iff_unsubmitted
    (s : UserRingBufferSample) (self : UserRingBuffer) :
    (s.submitted = false →
      s.drop = [PrimCall.user_ring_buffer__discard s.rb.ptr s.ptr]) ∧
    (UserRingBuffer.submit self s).2.1.submitted = true ∧
    (UserRingBuffer.submit self s).2.1.drop = [] := by
  refine ⟨fun h => ?_, rfl, rfl⟩
  simp [UserRingBufferSample.drop, h]

/-- Witness for C3 at a concrete unsubmitted sample. -/
theorem C3_witness :
    (({ ptr := 5, rb := { ptr := 1 }, submitted := false } :
        UserRingBufferSample).drop =
      [PrimCall.user_ring_buffer__discard 1 5]) ∧
    (UserRingBuffer.submit ⟨1⟩ ⟨5, ⟨1⟩, false⟩).2.1.submitted = true ∧
    (UserRingBuffer.submit ⟨1⟩ ⟨5, ⟨1⟩, false⟩).2.1.drop = [] :=
  ⟨(C3_drop_discards_iff_unsubmitted ⟨5, ⟨1⟩, false⟩ ⟨1⟩).1 rfl,
   (C3_drop_discards_iff_unsubmitted ⟨5, ⟨1⟩, false⟩ ⟨1⟩).2.1,
   (C3_drop_discards_iff_unsubmitted ⟨5, ⟨1⟩, false⟩ ⟨1⟩).2.2⟩

/-- Claim C4: `submit` returns success for every handle and sample; it invokes
the publish primitive once and marks the sample submitted; there is no input
on which it returns an error. -/
theorem C4_submit_always_succeeds (self : UserRingBuffer)
    (sample : UserRingBufferSample) :
    (UserRingBuffer.submit self sample).1 = Except.ok () ∧
    (UserRingBuffer.submit self sample).2.1 = { sample with submitted := true } ∧
    (UserRingBuffer.submit self sample).2.2 =
      [PrimCall.user_ring_buffer__submit self.ptr sample.ptr] :=
  ⟨rfl, rfl, rfl⟩

/-- Claim C5 counterexample: the claim says every successful `reserve::<T>()`
requests a region of exactly `size_of::<T>()` bytes from the ring primitive.
At a type of size `2 ^ 32` bytes (legal on a 64-bit target) the reserve
succeeds, yet the primitive is asked for `0` bytes, not `2 ^ 32` bytes: the
size is truncated by the `as c_uint` cast. -/
theorem C5_counterexample :
    (UserRingBuffer.reserve envOk ⟨1⟩ (2 ^ 32)).1 =
      Except.ok { ptr := 9, rb := ⟨1⟩, submitted := false } ∧
    (UserRingBuffer.reserve envOk ⟨1⟩ (2 ^ 32)).2 =
      [PrimCall.user_ring_buffer__reserve 1 0] ∧
    (UserRingBuffer.reserve envOk ⟨1⟩ (2 ^ 32)).2 ≠
      [PrimCall.user_ring_buffer__reserve 1 (2 ^ 32)] := by
  refine ⟨rfl, ?_, ?_⟩ <;> decide

/-- Claim C5 amended: for every type `T`, a successful `reserve::<T>()`
requests a region of `size_of::<T>() % 2 ^ 32` bytes from the ring primitive
(which equals `size_of::<T>()` whenever that value fits in 32 bits) and
returns a slot holding a non-null pointer to that region, a back-reference to
the handle it was called on, and a submitted flag that is initially false. -/
theorem C5_reserve_success_slot (env : KernelEnv) (self : UserRingBuffer)
    (sizeOfT : Nat) (s : UserRingBufferSample)
    (h : (UserRingBuffer.reserve env self sizeOfT).1 = Except.ok s) :
    (UserRingBuffer.reserve env self sizeOfT).2 =
      [PrimCall.user_ring_buffer__reserve self.ptr (sizeOfT % 2 ^ 32)] ∧
    (sizeOfT < 2 ^ 32 →
      (UserRingBuffer.reserve env self sizeOfT).2 =
        [PrimCall.user_ring_buffer__reserve self.ptr sizeOfT]) ∧
    s.ptr ≠ 0 ∧ s.rb = self ∧ s.submitted = false := by
  refine ⟨rfl, fun hlt => ?_, ?_⟩
  · show [PrimCall.user_ring_buffer__reserve self.ptr (toCUint sizeOfT)] = _
    rw [toCUint, Nat.mod_eq_of_lt hlt]
  · simp only [UserRingBuffer.reserve] at h
    rcases hnn : nonNullNew (env.reserveRaw self.ptr (toCUint sizeOfT))
      with _ | q
    · rw [hnn] at h
      split_ifs at h
    · rw [hnn] at h
      simp at h
      obtain ⟨hq, hraw⟩ := nonNullNew_some hnn
      rw [← h]
      exact ⟨by simpa [hq] using hraw, rfl, rfl⟩

/-- Witness for the amended C5 at a concrete environment, type size 8, and
the slot that `reserve` returns there. -/
theorem C5_witness :
    (UserRingBuffer.reserve envOk ⟨1⟩ 8).2 =
      [PrimCall.user_ring_buffer__reserve 1 (8 % 2 ^ 32)] ∧
    (8 < 2 ^ 32 →
      (UserRingBuffer.reserve envOk ⟨1⟩ 8).2 =
        [PrimCall.user_ring_buffer__reserve 1 8]) ∧
    ({ ptr := 9, rb := ⟨1⟩, submitted := false } :
        UserRingBufferSample).ptr ≠ 0 ∧
    ({ ptr := 9, rb := ⟨1⟩, submitted := false } :
        UserRingBufferSample).rb = ⟨1⟩ ∧
    ({ ptr := 9, rb := ⟨1⟩, submitted := false } :
        UserRingBufferSample).submitted = false :=
  C5_reserve_success_slot envOk ⟨1⟩ 8 ⟨9, ⟨1⟩, false⟩ rfl

/-- Claim C6: when the map kind check passes and the kernel ring constructor
returns null, `new` fails with the OS error carrying the errno value read
immediately after the failed call, for every errno value (nothing is remapped
to `InvalidInput` on this path). -/
theorem C6_new_null_gives_os_error (env : KernelEnv) (map : MapHandle)
    (hty : map.map_type = MapType.UserRingBuf)
    (hnull : env.newRaw map.fd = 0) :
    UserRingBuffer.new env map =
      (Except.error (Error.from_raw_os_error env.errno),
        [PrimCall.user_ring_buffer__new map.fd]) := by
  simp only [UserRingBuffer.new]
  rw [hnull]
  simp [hty, nonNullNew]

/-- Witness for C6 at a concrete environment whose constructor returns null
with errno 13 (`EACCES`). -/
theorem C6_witness :
    UserRingBuffer.new envNullNew ⟨MapType.UserRingBuf, 3⟩ =
      (Except.error (Error.from_raw_os_error 13),
        [PrimCall.user_ring_buffer__new 3]) :=
  C6_new_null_gives_os_error envNullNew ⟨MapType.UserRingBuf, 3⟩ rfl rfl

/-- No call made during a whole sample lifetime is a `free` call: reserve,
submit and discard are the only primitives a sample ever touches. -/
theorem slotLifetime_no_free (env : KernelEnv) (rb : UserRingBuffer)
    (n : Nat) (a : SlotAction) :
    ∀ c ∈ slotLifetime env rb n a, ¬ isFree c := by
  intro c hc hf
  obtain ⟨p, rfl⟩ := hf
  simp only [slotLifetime, UserRingBuffer.reserve] at hc
  rcases hnn : nonNullNew (env.reserveRaw rb.ptr (toCUint n)) with _ | q
  · rw [hnn] at hc
    split_ifs at hc <;> simp_all
  · rw [hnn] at hc
    cases a <;>
      simp_all [UserRingBufferSample.drop, UserRingBuffer.submit]

/-- Claim C7: over any complete well-borrowed session on a handle, the free
primitive runs exactly once against the handle, as the final event, after
every call made during the slot lifetimes (all slots are already destroyed by
then, as forced by the borrow relationship the session encodes). -/
theorem C7_free_exactly_once_last (env : KernelEnv) (rb : UserRingBuffer)
    (uses : List (Nat × SlotAction)) :
    (session env rb uses).count (PrimCall.user_ring_buffer__free rb.ptr) = 1 ∧
    ∃ body,
      session env rb uses = body ++ [PrimCall.user_ring_buffer__free rb.ptr] ∧
      ∀ c ∈ body, ¬ isFree c := by
  have hbody : ∀ c ∈ (uses.flatMap fun u => slotLifetime env rb u.1 u.2),
      ¬ isFree c := by
    intro c hc
    rw [List.mem_flatMap] at hc
    obtain ⟨u, -, hcu⟩ := hc
    exact slotLifetime_no_free env rb u.1 u.2 c hcu
  refine ⟨?_, ⟨_, rfl, hbody⟩⟩
  rw [session, List.count_append]
  have hzero :
      (uses.flatMap fun u => slotLifetime env rb u.1 u.2).count
        (PrimCall.user_ring_buffer__free rb.ptr) = 0 := by
    rw [List.count_eq_zero]
    intro hmem
    exact hbody _ hmem ⟨rb.ptr, rfl⟩
  rw [hzero]
  simp [UserRingBuffer.drop]

/-- Witness for C7 at a concrete session: one slot submitted, one abandoned. -/
theorem C7_witness :
    (session envOk ⟨1⟩
        [(8, SlotAction.submitIt), (4, SlotAction.dropUnsubmitted)]).count
      (PrimCall.user_ring_buffer__free 1) = 1 ∧
    ∃ body,
      session envOk ⟨1⟩
          [(8, SlotAction.submitIt), (4, SlotAction.dropUnsubmitted)] =
        body ++ [PrimCall.user_ring_buffer__free 1] ∧
      ∀ c ∈ body, ¬ isFree c :=
  C7_free_exactly_once_last envOk ⟨1⟩
    [(8, SlotAction.submitIt), (4, SlotAction.dropUnsubmitted)]

/-- Claim C8: the pointer handed to the publish primitive by `submit` is
exactly the address exposed by `as_mut`, so a value stored through the
`as_mut` reference is the value found at the published region. -/
theorem C8_as_mut_publish_round_trip {α : Type} (self : UserRingBuffer)
    (s : UserRingBufferSample) (mem : Ptr → α) (v : α) :
    (UserRingBuffer.submit self s).2.2 =
      [PrimCall.user_ring_buffer__submit self.ptr s.as_mut] ∧
    storeAt mem s.as_mut v s.ptr = v :=
  ⟨rfl, by simp [storeAt, UserRingBufferSample.as_mut]⟩

/-- Claim C9: `submit` never consults the back-reference stored in the
sample: it publishes the sample pointer against the invoked handle, sets the
submitted flag unconditionally, and the returned sample discards nothing when
dropped — so a slot reserved from ring A but submitted via ring B is
published to B and never discarded back to A. -/
theorem C9_submit_ignores_back_reference (self : UserRingBuffer)
    (s : UserRingBufferSample) :
    (UserRingBuffer.submit self s).2.2 =
      [PrimCall.user_ring_buffer__submit self.ptr s.ptr] ∧
    (UserRingBuffer.submit self s).2.1.submitted = true ∧
    (UserRingBuffer.submit self s).2.1.drop = [] ∧
    ∀ p q, PrimCall.user_ring_buffer__discard p q ∉
      (UserRingBuffer.submit self s).2.2 := by
  refine ⟨rfl, rfl, rfl, fun p q hmem => ?_⟩
  simp [UserRingBuffer.submit] at hmem

/-- Witness for C9: a sample whose back-reference is ring 1, submitted via
ring 2, is published against ring 2 and its drop makes no call. -/
theorem C9_witness :
    (UserRingBuffer.submit ⟨2⟩ ⟨5, ⟨1⟩, false⟩).2.2 =
      [PrimCall.user_ring_buffer__submit 2 5] ∧
    (UserRingBuffer.submit ⟨2⟩ ⟨5, ⟨1⟩, false⟩).2.1.submitted = true ∧
    (UserRingBuffer.submit ⟨2⟩ ⟨5, ⟨1⟩, false⟩).2.1.drop = [] ∧
    ∀ p q, PrimCall.user_ring_buffer__discard p q ∉
      (UserRingBuffer.submit ⟨2⟩ ⟨5, ⟨1⟩, false⟩).2.2 :=
  C9_submit_ignores_back_reference ⟨2⟩ ⟨5, ⟨1⟩, false⟩

/-- Claim C10: the byte size handed to the reserve primitive is
`size_of::<T>()` reduced modulo `2 ^ 32` (the `as c_uint` cast), so whenever
`size_of::<T>()` is at least `2 ^ 32` the requested size differs from the
true size. -/
theorem C10_reserve_size_cast_truncates (env : KernelEnv)
    (self : UserRingBuffer) (sizeOfT : Nat) :
    (UserRingBuffer.reserve env self sizeOfT).2 =
      [PrimCall.user_ring_buffer__reserve self.ptr (sizeOfT % 2 ^ 32)] ∧
    (2 ^ 32 ≤ sizeOfT →
      (UserRingBuffer.reserve env self sizeOfT).2 ≠
        [PrimCall.user_ring_buffer__reserve self.ptr sizeOfT]) := by
  refine ⟨rfl, fun hge hlist => ?_⟩
  have hsz : sizeOfT % 2 ^ 32 = sizeOfT := by
    simpa [toCUint] using (PrimCall.user_ring_buffer__reserve.inj
      (List.head_eq_of_cons_eq hlist)).2
  have : sizeOfT % 2 ^ 32 < 2 ^ 32 := Nat.mod_lt _ (by norm_num)
  omega

/-- Witness for C10 at type size `2 ^ 32`: the primitive is asked for 0
bytes, never `2 ^ 32` bytes. -/
theorem C10_witness :
    (UserRingBuffer.reserve envOk ⟨1⟩ (2 ^ 32)).2 =
      [PrimCall.user_ring_buffer__reserve 1 (2 ^ 32 % 2 ^ 32)] ∧
    (2 ^ 32 ≤ 2 ^ 32 →
      (UserRingBuffer.reserve envOk ⟨1⟩ (2 ^ 32)).2 ≠
        [PrimCall.user_ring_buffer__reserve 1 (2 ^ 32)]) :=
  C10_reserve_size_cast_truncates envOk ⟨1⟩ (2 ^ 32)

end LibbpfRs
